import Mathlib

/-!
Verification of the myfund monitoring system's decision core (src/main.py):
trade-ledger queries, the per-fund signal engine, and the executor.
Machine floats are modelled as rationals, dates as day numbers (Nat),
and the per-fund decision loop body of compute_signals as a pure function
of the strategy, trade log, current day, fund configuration and price history.
-/

namespace Myfund

/-- A row of trade_log.csv: date, fund_code, action, nav, shares_delta, note. -/
structure TradeRecord where
  date : Nat
  fund_code : String
  action : String
  nav : ℚ
  shares_delta : Int
  note : String
deriving DecidableEq, Repr

/-- One point of a fund's nav history, ascending by date. -/
structure PricePoint where
  date : Nat
  nav : ℚ
deriving DecidableEq, Repr

/-- get_current_shares: sums shares_delta over every record of the fund
(no filter on action), then floors at 0. -/
def get_current_shares (fund_code : String) (trade_log : List TradeRecord) : Int :=
  max (trade_log.foldl
    (fun total row => if row.fund_code == fund_code then total + row.shares_delta else total) 0) 0

/-- get_last_trade_date: date of the most recent record of the fund with exactly
the given action, scanning the log from newest to oldest. -/
def get_last_trade_date (fund_code action : String) (trade_log : List TradeRecord) :
    Option Nat :=
  (trade_log.reverse.find?
    (fun row => row.fund_code == fund_code && row.action == action)).map TradeRecord.date

/-- One step of get_avg_cost's replay: acquisitions add cost and shares; disposals
remove shares at the current average cost, capped at the held amount. -/
def avg_cost_step (fund_code : String) (st : ℚ × Int) (row : TradeRecord) : ℚ × Int :=
  if row.fund_code == fund_code then
    if row.shares_delta > 0 then
      (st.1 + (row.shares_delta : ℚ) * row.nav, st.2 + row.shares_delta)
    else if row.shares_delta < 0 then
      if st.2 > 0 then
        let avg := st.1 / (st.2 : ℚ)
        let sold := min (-row.shares_delta) st.2
        (st.1 - (sold : ℚ) * avg, st.2 - sold)
      else st
    else st
  else st

/-- The (total_cost, total_shares) state after replaying the whole log. -/
def avg_cost_state (fund_code : String) (trade_log : List TradeRecord) : ℚ × Int :=
  trade_log.foldl (avg_cost_step fund_code) (0, 0)

/-- get_avg_cost: average acquisition cost of the held shares, none if none held. -/
def get_avg_cost (fund_code : String) (trade_log : List TradeRecord) : Option ℚ :=
  if (avg_cost_state fund_code trade_log).2 > 0 then
    some ((avg_cost_state fund_code trade_log).1 / ((avg_cost_state fund_code trade_log).2 : ℚ))
  else none

/-- get_extra_shares: sums shares_delta over records with action extra_buy or
extra_sell, floored at 0. -/
def get_extra_shares (fund_code : String) (trade_log : List TradeRecord) : Int :=
  max (trade_log.foldl
    (fun total row =>
      if row.fund_code == fund_code && (row.action == "extra_buy" || row.action == "extra_sell")
      then total + row.shares_delta else total) 0) 0

/-- has_used_extra: true iff the log has any extra_buy record for the fund. -/
def has_used_extra (fund_code : String) (trade_log : List TradeRecord) : Bool :=
  trade_log.any (fun row => row.fund_code == fund_code && row.action == "extra_buy")

/-- get_last_buy_nav: nav of the most recent buy or extra_buy record of the fund. -/
def get_last_buy_nav (fund_code : String) (trade_log : List TradeRecord) : Option ℚ :=
  (trade_log.reverse.find?
    (fun row => row.fund_code == fund_code && (row.action == "buy" || row.action == "extra_buy"))
    ).map TradeRecord.nav

/-- Python's max(filter(None, [a, b]), default=None) on two optional dates. -/
def max_option : Option Nat → Option Nat → Option Nat
  | none, b => b
  | some a, none => some a
  | some a, some b => some (max a b)

/-- (today - d).days for day-number dates. -/
def days_since (today d : Nat) : Int := (today : Int) - (d : Int)

/-- Tier thresholds: buy_pct and sell_pct. -/
structure Thresholds where
  buy_pct : ℚ
  sell_pct : ℚ
deriving DecidableEq, Repr

/-- The strategy section of config.yaml. -/
structure Strategy where
  ma_days : Nat
  thresholds : List (String × Thresholds)
  buy_cooldown_days : Int
  sell_cooldown_days : Int
  cooldown_override_extra_pct : ℚ
  extra_drop_pct : ℚ
deriving Repr

/-- thresholds.get(vol, thresholds["mid"]). -/
def lookup_thresholds (thresholds : List (String × Thresholds)) (vol : String) : Thresholds :=
  match thresholds.find? (fun p => p.1 == vol) with
  | some p => p.2
  | none =>
    match thresholds.find? (fun p => p.1 == "mid") with
    | some p => p.2
    | none => ⟨0, 0⟩

/-- One fund's entry of config.yaml. -/
structure FundConfig where
  code : String
  name : String
  category : String
  volatility : String
  max_shares : Int
deriving Repr

/-- The Signal object; defaults mirror Signal.__init__. -/
structure Signal where
  fund_code : String
  fund_name : String
  category : String
  current_nav : ℚ := 0
  current_date : Nat := 0
  ma250 : Option ℚ := none
  deviation_pct : Option ℚ := none
  held_shares : Int := 0
  extra_shares : Int := 0
  max_shares : Int := 0
  avg_cost : Option ℚ := none
  pnl_pct : Option ℚ := none
  signal_type : String := ""
  can_execute : Bool := false
  reason : String := ""
  block_reasons : List String := []
deriving Repr

/-- nav of the last history point (history[-1]["nav"]). -/
def current_nav_of (history : List PricePoint) : ℚ :=
  (history.getLast?.map PricePoint.nav).getD 0

/-- date of the last history point (history[-1]["date"]). -/
def current_date_of (history : List PricePoint) : Nat :=
  (history.getLast?.map PricePoint.date).getD 0

/-- Moving average over the most recent min(len, ma_days) nav values. -/
def ma_of (strategy : Strategy) (history : List PricePoint) : ℚ :=
  let nav_values := history.map PricePoint.nav
  let window := min nav_values.length strategy.ma_days
  (nav_values.drop (nav_values.length - window)).sum / (window : ℚ)

/-- Deviation of the current nav from the moving average, in percent. -/
def deviation_of (strategy : Strategy) (history : List PricePoint) : ℚ :=
  (current_nav_of history - ma_of strategy history) / ma_of strategy history * 100

/-- The no-position blocking check of the sell branch. -/
def no_position_blocks (sig : Signal) : List String :=
  if sig.held_shares + sig.extra_shares ≤ 0 then ["无持仓可卖"] else []

/-- The sell-cooldown blocking check: blocks when the more recent of the last
sell and last extra_sell dates lies within sell_cooldown_days of today. -/
def sell_cooldown_blocks (strategy : Strategy) (code : String)
    (trade_log : List TradeRecord) (today : Nat) : List String :=
  match max_option (get_last_trade_date code "sell" trade_log)
      (get_last_trade_date code "extra_sell" trade_log) with
  | some d =>
    if days_since today d < strategy.sell_cooldown_days then
      ["卖出冷却中（" ++ toString (days_since today d) ++ "/"
        ++ toString strategy.sell_cooldown_days ++ "天）"]
    else []
  | none => []

/-- The sell-branch evaluation of compute_signals: blocking checks, cooldown,
then type selection preferring extra_sell. -/
def sell_eval (strategy : Strategy) (trade_log : List TradeRecord) (today : Nat)
    (code : String) (sell_th : ℚ) (sig : Signal) : Signal :=
  let blocks2 := no_position_blocks sig ++ sell_cooldown_blocks strategy code trade_log today
  let can_exec := blocks2.isEmpty
  if sig.extra_shares > 0 then
    { sig with block_reasons := blocks2, can_execute := can_exec, signal_type := "extra_sell"
               reason := "偏离 ≥ +" ++ toString sell_th ++ "%，优先卖出额外份额" }
  else
    { sig with block_reasons := blocks2, can_execute := can_exec, signal_type := "sell"
               reason := "偏离 ≥ +" ++ toString sell_th ++ "%" }

/-- The buy-cooldown blocking check: blocks when the more recent of the last buy
and last extra_buy dates lies within buy_cooldown_days of today and the
deviation does not reach the override threshold buy_th minus the override
margin. -/
def buy_cooldown_blocks (strategy : Strategy) (code : String)
    (trade_log : List TradeRecord) (today : Nat) (deviation buy_th : ℚ) : List String :=
  match max_option (get_last_trade_date code "buy" trade_log)
      (get_last_trade_date code "extra_buy" trade_log) with
  | some d =>
    if days_since today d < strategy.buy_cooldown_days then
      if deviation ≤ buy_th - strategy.cooldown_override_extra_pct then []
      else ["买入冷却中（" ++ toString (days_since today d) ++ "/"
        ++ toString strategy.buy_cooldown_days ++ "天）"]
    else []
  | none => []

/-- The buy-branch evaluation of compute_signals: quota check, superdip extra_buy
gate, overridable buy cooldown, final executability. -/
def buy_eval (strategy : Strategy) (trade_log : List TradeRecord) (today : Nat)
    (code : String) (buy_th deviation : ℚ) (sig : Signal) : Signal :=
  let quota_full := sig.held_shares ≥ sig.max_shares
  let step1 : Signal × List String :=
    if quota_full then
      let used_extra := has_used_extra code trade_log
      let last_buy_nav := get_last_buy_nav code trade_log
      if used_extra then
        (sig, ["配额已满 " ++ toString sig.held_shares ++ "/" ++ toString sig.max_shares
          ++ "，额外机会已用"])
      else
        match last_buy_nav with
        | none =>
          (sig, ["配额已满 " ++ toString sig.held_shares ++ "/" ++ toString sig.max_shares
            ++ "，无上次买入记录"])
        | some lbn =>
          let drop_from_last := (sig.current_nav - lbn) / lbn * 100
          if drop_from_last > strategy.extra_drop_pct then
            (sig, ["配额已满 " ++ toString sig.held_shares ++ "/" ++ toString sig.max_shares
              ++ "，距上次买入跌幅 " ++ toString drop_from_last ++ "% 未达 "
              ++ toString strategy.extra_drop_pct ++ "%"])
          else
            ({ sig with signal_type := "extra_buy"
                        reason := "超跌加仓！较上次买入(" ++ toString lbn ++ ")又跌 "
                          ++ toString drop_from_last ++ "%" }, [])
    else
      ({ sig with signal_type := "buy"
                  reason := "偏离 " ++ toString deviation ++ "% ≤ 阈值 "
                    ++ toString buy_th ++ "%" }, [])
  let sig1 := step1.1
  let blocks1 := step1.2
  let blocks2 :=
    if sig1.signal_type == "buy" || sig1.signal_type == "extra_buy" then
      blocks1 ++ buy_cooldown_blocks strategy code trade_log today deviation buy_th
    else blocks1
  { sig1 with block_reasons := blocks2
              can_execute := blocks2.isEmpty
                && (sig1.signal_type == "buy" || sig1.signal_type == "extra_buy") }

/-- The signal as populated before the threshold comparison in the non-low
branch: latest nav and date, moving average, deviation, holdings, cost, pnl. -/
def sig_base (strategy : Strategy) (trade_log : List TradeRecord) (fund_cfg : FundConfig)
    (history : List PricePoint) : Signal :=
  let current_nav := current_nav_of history
  let avg_cost := get_avg_cost fund_cfg.code trade_log
  { fund_code := fund_cfg.code, fund_name := fund_cfg.name, category := fund_cfg.category
    max_shares := fund_cfg.max_shares
    current_nav := current_nav, current_date := current_date_of history
    ma250 := some (ma_of strategy history)
    deviation_pct := some (deviation_of strategy history)
    held_shares := get_current_shares fund_cfg.code trade_log
    extra_shares := get_extra_shares fund_cfg.code trade_log
    avg_cost := avg_cost
    pnl_pct :=
      match avg_cost with
      | some c => if 0 < c then some ((current_nav - c) / c * 100) else none
      | none => none }

/-- The non-low, sufficient-history part of the per-fund loop body: threshold
comparison, then the sell branch, the buy branch, or the no-trigger branch. -/
def main_eval (strategy : Strategy) (trade_log : List TradeRecord) (today : Nat)
    (fund_cfg : FundConfig) (history : List PricePoint) : Signal :=
  let deviation := deviation_of strategy history
  let th := lookup_thresholds strategy.thresholds fund_cfg.volatility
  let sigBase := sig_base strategy trade_log fund_cfg history
  if deviation ≥ th.sell_pct then
    sell_eval strategy trade_log today fund_cfg.code th.sell_pct sigBase
  else if deviation ≤ th.buy_pct then
    buy_eval strategy trade_log today fund_cfg.code th.buy_pct deviation sigBase
  else
    { sigBase with signal_type := "none"
                   reason := "偏离 " ++ toString deviation ++ "%，未触发（买≤"
                     ++ toString th.buy_pct ++ "% / 卖≥+" ++ toString th.sell_pct ++ "%）" }

/-- The body of compute_signals for one fund: the low-volatility branch, the
insufficient-history guard, then the moving-average strategy. The external
nav fetches are modelled by the given history; its last point stands in for
fetch_current_nav in the low branch. -/
def computeSignal (strategy : Strategy) (trade_log : List TradeRecord) (today : Nat)
    (fund_cfg : FundConfig) (history : List PricePoint) : Signal :=
  let code := fund_cfg.code
  let max_shares := fund_cfg.max_shares
  let sig0 : Signal := { fund_code := code, fund_name := fund_cfg.name
                         category := fund_cfg.category, max_shares := max_shares }
  if fund_cfg.volatility == "low" then
    let held := get_current_shares code trade_log
    let sig1 :=
      if held < max_shares then
        { sig0 with held_shares := held, signal_type := "hold_buy", can_execute := true
                    reason := "债券类直接买入，当前" ++ toString held ++ "/"
                      ++ toString max_shares ++ "份" }
      else
        { sig0 with held_shares := held, signal_type := "none"
                    reason := "债券类已满仓 " ++ toString held ++ "/"
                      ++ toString max_shares ++ "份" }
    match history.getLast? with
    | some p => { sig1 with current_date := p.date, current_nav := p.nav }
    | none => sig1
  else if history.length < 60 then
    { sig0 with signal_type := "none"
                reason := "历史数据不足（仅" ++ toString history.length ++ "天），跳过" }
  else
    main_eval strategy trade_log today fund_cfg history

/-- compute_signals over the configured fund list; the per-fund nav fetch is
modelled by the histories function. -/
def compute_signals (strategy : Strategy) (funds : List FundConfig)
    (trade_log : List TradeRecord) (today : Nat)
    (histories : String → List PricePoint) : List Signal :=
  funds.map (fun cfg => computeSignal strategy trade_log today cfg (histories cfg.code))

/-- The TradeRecord appended by execute_signals for one executed signal. -/
def signal_record (sig : Signal) (act : String) (delta : Int) : TradeRecord :=
  { date := sig.current_date, fund_code := sig.fund_code, action := act
    nav := sig.current_nav, shares_delta := delta, note := sig.reason }

/-- One step of execute_signals: skip non-executable signals, otherwise append
one record per recognised signal_type. -/
def execute_step (acc : List Signal × List TradeRecord) (sig : Signal) :
    List Signal × List TradeRecord :=
  if !sig.can_execute then acc
  else if sig.signal_type == "buy" || sig.signal_type == "hold_buy" then
    (acc.1 ++ [sig], acc.2 ++ [signal_record sig "buy" 1])
  else if sig.signal_type == "extra_buy" then
    (acc.1 ++ [sig], acc.2 ++ [signal_record sig "extra_buy" 1])
  else if sig.signal_type == "sell" then
    (acc.1 ++ [sig], acc.2 ++ [signal_record sig "sell" (-1)])
  else if sig.signal_type == "extra_sell" then
    (acc.1 ++ [sig], acc.2 ++ [signal_record sig "extra_sell" (-1)])
  else acc

/-- execute_signals: the executed signals and the records appended to the log. -/
def execute_signals (signals : List Signal) : List Signal × List TradeRecord :=
  signals.foldl execute_step ([], [])

/-- The spec's reading of currentShares: sum of shares_delta over records of the
fund whose action is buy or sell only, floored at 0. Stated from the spec's
words, for comparison with the source's get_current_shares. -/
def spec_current_shares (fund_code : String) (trade_log : List TradeRecord) : Int :=
  max (((trade_log.filter
    (fun row => row.fund_code == fund_code && (row.action == "buy" || row.action == "sell"))
    ).map TradeRecord.shares_delta).sum) 0

/-- Whether the sell cooldown is active: a most recent sell or extra_sell exists
and lies within sell_cooldown_days of today. -/
def sell_cooldown_hit (strategy : Strategy) (code : String) (trade_log : List TradeRecord)
    (today : Nat) : Bool :=
  match max_option (get_last_trade_date code "sell" trade_log)
      (get_last_trade_date code "extra_sell" trade_log) with
  | some d => days_since today d < strategy.sell_cooldown_days
  | none => false

/-- Whether the buy cooldown blocks: a most recent buy or extra_buy exists within
buy_cooldown_days and the deviation does not reach the override threshold. -/
def buy_cooldown_hit (strategy : Strategy) (code : String) (trade_log : List TradeRecord)
    (today : Nat) (deviation buy_th : ℚ) : Bool :=
  match max_option (get_last_trade_date code "buy" trade_log)
      (get_last_trade_date code "extra_buy" trade_log) with
  | some d =>
    days_since today d < strategy.buy_cooldown_days
      && !(deviation ≤ buy_th - strategy.cooldown_override_extra_pct)
  | none => false

/-! ### Basic lemmas about the ledger queries and the engine's branches -/

lemma foldl_shares (fund : String) (l : List TradeRecord) : ∀ (a : Int),
    l.foldl (fun total row => if row.fund_code == fund then total + row.shares_delta else total) a
      = a + ((l.filter (fun row => row.fund_code == fund)).map TradeRecord.shares_delta).sum := by
  induction l with
  | nil => intro a; simp
  | cons r t ih =>
    intro a
    by_cases h : (r.fund_code == fund) = true
    · simp only [List.foldl_cons, h, if_true, ih, List.filter_cons, List.map_cons, List.sum_cons]
      ring
    · simp only [List.foldl_cons, h, if_false, ih, List.filter_cons, Bool.false_eq_true]

@[simp] lemma sig_base_signal_type (s : Strategy) (l : List TradeRecord) (cfg : FundConfig)
    (h : List PricePoint) : (sig_base s l cfg h).signal_type = "" := rfl

@[simp] lemma sig_base_held_shares (s : Strategy) (l : List TradeRecord) (cfg : FundConfig)
    (h : List PricePoint) : (sig_base s l cfg h).held_shares = get_current_shares cfg.code l := rfl

@[simp] lemma sig_base_extra_shares (s : Strategy) (l : List TradeRecord) (cfg : FundConfig)
    (h : List PricePoint) : (sig_base s l cfg h).extra_shares = get_extra_shares cfg.code l := rfl

@[simp] lemma sig_base_max_shares (s : Strategy) (l : List TradeRecord) (cfg : FundConfig)
    (h : List PricePoint) : (sig_base s l cfg h).max_shares = cfg.max_shares := rfl

@[simp] lemma sig_base_current_nav (s : Strategy) (l : List TradeRecord) (cfg : FundConfig)
    (h : List PricePoint) : (sig_base s l cfg h).current_nav = current_nav_of h := rfl

@[simp] lemma sig_base_ma250 (s : Strategy) (l : List TradeRecord) (cfg : FundConfig)
    (h : List PricePoint) : (sig_base s l cfg h).ma250 = some (ma_of s h) := rfl

@[simp] lemma sig_base_deviation_pct (s : Strategy) (l : List TradeRecord) (cfg : FundConfig)
    (h : List PricePoint) : (sig_base s l cfg h).deviation_pct = some (deviation_of s h) := rfl

lemma computeSignal_low (s : Strategy) (l : List TradeRecord) (today : Nat)
    (cfg : FundConfig) (hist : List PricePoint) (hvol : cfg.volatility = "low") :
    computeSignal s l today cfg hist =
      (let held := get_current_shares cfg.code l
       let sig1 : Signal :=
        if held < cfg.max_shares then
          { fund_code := cfg.code, fund_name := cfg.name, category := cfg.category
            max_shares := cfg.max_shares, held_shares := held
            signal_type := "hold_buy", can_execute := true
            reason := "债券类直接买入，当前" ++ toString held ++ "/"
              ++ toString cfg.max_shares ++ "份" }
        else
          { fund_code := cfg.code, fund_name := cfg.name, category := cfg.category
            max_shares := cfg.max_shares, held_shares := held
            signal_type := "none"
            reason := "债券类已满仓 " ++ toString held ++ "/"
              ++ toString cfg.max_shares ++ "份" }
       match hist.getLast? with
       | some p => { sig1 with current_date := p.date, current_nav := p.nav }
       | none => sig1) := by
  unfold computeSignal
  rw [if_pos (beq_iff_eq.mpr hvol)]

lemma computeSignal_short (s : Strategy) (l : List TradeRecord) (today : Nat)
    (cfg : FundConfig) (hist : List PricePoint)
    (hvol : cfg.volatility ≠ "low") (hlen : hist.length < 60) :
    computeSignal s l today cfg hist =
      { fund_code := cfg.code, fund_name := cfg.name, category := cfg.category
        max_shares := cfg.max_shares, signal_type := "none"
        reason := "历史数据不足（仅" ++ toString hist.length ++ "天），跳过" } := by
  unfold computeSignal
  rw [if_neg, if_pos hlen]
  simp [hvol]

lemma computeSignal_main (s : Strategy) (l : List TradeRecord) (today : Nat)
    (cfg : FundConfig) (hist : List PricePoint)
    (hvol : cfg.volatility ≠ "low") (hlen : 60 ≤ hist.length) :
    computeSignal s l today cfg hist = main_eval s l today cfg hist := by
  unfold computeSignal
  rw [if_neg, if_neg (by omega)]
  simp [hvol]

lemma main_eval_sell (s : Strategy) (l : List TradeRecord) (today : Nat)
    (cfg : FundConfig) (hist : List PricePoint)
    (hs : deviation_of s hist ≥ (lookup_thresholds s.thresholds cfg.volatility).sell_pct) :
    main_eval s l today cfg hist =
      sell_eval s l today cfg.code (lookup_thresholds s.thresholds cfg.volatility).sell_pct
        (sig_base s l cfg hist) := by
  unfold main_eval
  rw [if_pos hs]

lemma main_eval_buy (s : Strategy) (l : List TradeRecord) (today : Nat)
    (cfg : FundConfig) (hist : List PricePoint)
    (hns : ¬ deviation_of s hist ≥ (lookup_thresholds s.thresholds cfg.volatility).sell_pct)
    (hb : deviation_of s hist ≤ (lookup_thresholds s.thresholds cfg.volatility).buy_pct) :
    main_eval s l today cfg hist =
      buy_eval s l today cfg.code (lookup_thresholds s.thresholds cfg.volatility).buy_pct
        (deviation_of s hist) (sig_base s l cfg hist) := by
  unfold main_eval
  rw [if_neg hns, if_pos hb]

lemma main_eval_none (s : Strategy) (l : List TradeRecord) (today : Nat)
    (cfg : FundConfig) (hist : List PricePoint)
    (hns : ¬ deviation_of s hist ≥ (lookup_thresholds s.thresholds cfg.volatility).sell_pct)
    (hnb : ¬ deviation_of s hist ≤ (lookup_thresholds s.thresholds cfg.volatility).buy_pct) :
    (main_eval s l today cfg hist).signal_type = "none"
      ∧ (main_eval s l today cfg hist).can_execute = false := by
  unfold main_eval
  rw [if_neg hns, if_neg hnb]
  exact ⟨rfl, rfl⟩

/-! ### Concrete test fixtures -/

/-- A concrete strategy: 2-day moving average window, mid tier thresholds
buy at -15 and sell at +20, 30-day cooldowns, override margin 5, extra drop 8. -/
def testStrategy : Strategy :=
  { ma_days := 2, thresholds := [("mid", ⟨-15, 20⟩)], buy_cooldown_days := 30
    sell_cooldown_days := 30, cooldown_override_extra_pct := 5, extra_drop_pct := 8 }

/-- A 60-point history: 58 filler points of nav 1, then navs a and b. With a
2-day window the moving average is (a+b)/2 and the current nav is b. -/
def mkHist (a b : ℚ) : List PricePoint :=
  List.replicate 58 ⟨0, 1⟩ ++ [⟨58, a⟩, ⟨59, b⟩]

lemma mkHist_length (a b : ℚ) : (mkHist a b).length = 60 := by
  simp [mkHist]

lemma mkHist_getLast (a b : ℚ) : (mkHist a b).getLast? = some ⟨59, b⟩ := by
  have h : mkHist a b = (List.replicate 58 (⟨0, 1⟩ : PricePoint) ++ [⟨58, a⟩]) ++ [⟨59, b⟩] := by
    simp [mkHist]
  rw [h, List.getLast?_concat]

lemma mkHist_current_nav (a b : ℚ) : current_nav_of (mkHist a b) = b := by
  rw [current_nav_of, mkHist_getLast]
  rfl

lemma mkHist_nav_values (a b : ℚ) :
    (mkHist a b).map PricePoint.nav = List.replicate 58 (1 : ℚ) ++ [a, b] := by
  simp [mkHist]

lemma mkHist_ma (a b : ℚ) : ma_of testStrategy (mkHist a b) = (a + b) / 2 := by
  have hlen : ((mkHist a b).map PricePoint.nav).length = 60 := by
    simp [mkHist_nav_values]
  have hdrop : ((mkHist a b).map PricePoint.nav).drop 58 = [a, b] := by
    rw [mkHist_nav_values]
    exact List.drop_left' (by simp)
  simp only [ma_of, hlen]
  have hw : min 60 testStrategy.ma_days = 2 := rfl
  rw [hw]
  norm_num [hdrop]

lemma mkHist_deviation (a b : ℚ) :
    deviation_of testStrategy (mkHist a b) = (b - (a + b) / 2) / ((a + b) / 2) * 100 := by
  unfold deviation_of
  rw [mkHist_current_nav, mkHist_ma]

lemma testStrategy_mid : lookup_thresholds testStrategy.thresholds "mid" = ⟨-15, 20⟩ := rfl

/-! ### sell branch characterization -/

lemma isEmpty_append (l₁ l₂ : List String) :
    (l₁ ++ l₂).isEmpty = (l₁.isEmpty && l₂.isEmpty) := by
  cases l₁ <;> simp [List.isEmpty]

lemma no_position_blocks_isEmpty (sig : Signal) :
    (no_position_blocks sig).isEmpty
      = !decide (sig.held_shares + sig.extra_shares ≤ 0) := by
  unfold no_position_blocks
  by_cases h : sig.held_shares + sig.extra_shares ≤ 0 <;> simp [h]

lemma no_position_blocks_length (sig : Signal) :
    (no_position_blocks sig).length
      = if sig.held_shares + sig.extra_shares ≤ 0 then 1 else 0 := by
  unfold no_position_blocks
  by_cases h : sig.held_shares + sig.extra_shares ≤ 0 <;> simp [h]

lemma sell_cooldown_blocks_isEmpty (s : Strategy) (code : String) (l : List TradeRecord)
    (today : Nat) :
    (sell_cooldown_blocks s code l today).isEmpty = !sell_cooldown_hit s code l today := by
  unfold sell_cooldown_blocks sell_cooldown_hit
  cases max_option (get_last_trade_date code "sell" l) (get_last_trade_date code "extra_sell" l)
    with
  | none => rfl
  | some d => by_cases h : days_since today d < s.sell_cooldown_days <;> simp [h]

lemma sell_cooldown_blocks_length (s : Strategy) (code : String) (l : List TradeRecord)
    (today : Nat) :
    (sell_cooldown_blocks s code l today).length
      = if sell_cooldown_hit s code l today = true then 1 else 0 := by
  unfold sell_cooldown_blocks sell_cooldown_hit
  cases max_option (get_last_trade_date code "sell" l) (get_last_trade_date code "extra_sell" l)
    with
  | none => rfl
  | some d => by_cases h : days_since today d < s.sell_cooldown_days <;> simp [h]

lemma sell_eval_signal_type (s : Strategy) (l : List TradeRecord) (today : Nat)
    (code : String) (th : ℚ) (sig : Signal) :
    (sell_eval s l today code th sig).signal_type
      = if sig.extra_shares > 0 then "extra_sell" else "sell" := by
  simp only [sell_eval]
  split <;> rfl

lemma sell_eval_can_execute (s : Strategy) (l : List TradeRecord) (today : Nat)
    (code : String) (th : ℚ) (sig : Signal) :
    (sell_eval s l today code th sig).can_execute
      = (!decide (sig.held_shares + sig.extra_shares ≤ 0)
          && !sell_cooldown_hit s code l today) := by
  have hcan : (sell_eval s l today code th sig).can_execute
      = (no_position_blocks sig ++ sell_cooldown_blocks s code l today).isEmpty := by
    simp only [sell_eval]
    split <;> rfl
  rw [hcan, isEmpty_append, no_position_blocks_isEmpty, sell_cooldown_blocks_isEmpty]

lemma sell_eval_block_reasons (s : Strategy) (l : List TradeRecord) (today : Nat)
    (code : String) (th : ℚ) (sig : Signal) :
    (sell_eval s l today code th sig).block_reasons
      = no_position_blocks sig ++ sell_cooldown_blocks s code l today := by
  simp only [sell_eval]
  split <;> rfl

lemma sell_eval_blocks_length (s : Strategy) (l : List TradeRecord) (today : Nat)
    (code : String) (th : ℚ) (sig : Signal) :
    (sell_eval s l today code th sig).block_reasons.length
      = (if sig.held_shares + sig.extra_shares ≤ 0 then 1 else 0)
        + (if sell_cooldown_hit s code l today = true then 1 else 0) := by
  rw [sell_eval_block_reasons, List.length_append, no_position_blocks_length,
    sell_cooldown_blocks_length]

/-! ### buy branch characterization -/

lemma buy_eval_not_full (s : Strategy) (l : List TradeRecord) (today : Nat)
    (code : String) (bth dev : ℚ) (sig : Signal)
    (h : ¬ sig.held_shares ≥ sig.max_shares) :
    (buy_eval s l today code bth dev sig).signal_type = "buy"
    ∧ (buy_eval s l today code bth dev sig).block_reasons
        = buy_cooldown_blocks s code l today dev bth
    ∧ (buy_eval s l today code bth dev sig).can_execute
        = (buy_cooldown_blocks s code l today dev bth).isEmpty := by
  simp only [buy_eval, if_neg h]
  simp

lemma buy_eval_extra_accept (s : Strategy) (l : List TradeRecord) (today : Nat)
    (code : String) (bth dev : ℚ) (sig : Signal) (lbn : ℚ)
    (hfull : sig.held_shares ≥ sig.max_shares)
    (hused : has_used_extra code l = false)
    (hlbn : get_last_buy_nav code l = some lbn)
    (hdrop : ¬ (sig.current_nav - lbn) / lbn * 100 > s.extra_drop_pct) :
    (buy_eval s l today code bth dev sig).signal_type = "extra_buy"
    ∧ (buy_eval s l today code bth dev sig).block_reasons
        = buy_cooldown_blocks s code l today dev bth
    ∧ (buy_eval s l today code bth dev sig).can_execute
        = (buy_cooldown_blocks s code l today dev bth).isEmpty := by
  simp only [buy_eval, if_pos hfull, hused, hlbn, Bool.false_eq_true, if_neg hdrop]
  simp

lemma buy_eval_extra_reject (s : Strategy) (l : List TradeRecord) (today : Nat)
    (code : String) (bth dev : ℚ) (sig : Signal) (lbn : ℚ)
    (hfull : sig.held_shares ≥ sig.max_shares)
    (hused : has_used_extra code l = false)
    (hlbn : get_last_buy_nav code l = some lbn)
    (hdrop : (sig.current_nav - lbn) / lbn * 100 > s.extra_drop_pct) :
    (buy_eval s l today code bth dev sig).signal_type = sig.signal_type
    ∧ (buy_eval s l today code bth dev sig).block_reasons ≠ []
    ∧ (buy_eval s l today code bth dev sig).can_execute = false := by
  simp only [buy_eval, if_pos hfull, hused, hlbn, Bool.false_eq_true, if_pos hdrop]
  refine ⟨rfl, ?_, ?_⟩ <;> split_ifs <;> simp

lemma buy_eval_used_reject (s : Strategy) (l : List TradeRecord) (today : Nat)
    (code : String) (bth dev : ℚ) (sig : Signal)
    (hfull : sig.held_shares ≥ sig.max_shares)
    (hused : has_used_extra code l = true) :
    (buy_eval s l today code bth dev sig).signal_type = sig.signal_type
    ∧ (buy_eval s l today code bth dev sig).block_reasons ≠ []
    ∧ (buy_eval s l today code bth dev sig).can_execute = false := by
  simp only [buy_eval, if_pos hfull, hused]
  refine ⟨rfl, ?_, ?_⟩ <;> split_ifs <;> simp

lemma buy_eval_no_lbn_reject (s : Strategy) (l : List TradeRecord) (today : Nat)
    (code : String) (bth dev : ℚ) (sig : Signal)
    (hfull : sig.held_shares ≥ sig.max_shares)
    (hused : has_used_extra code l = false)
    (hlbn : get_last_buy_nav code l = none) :
    (buy_eval s l today code bth dev sig).signal_type = sig.signal_type
    ∧ (buy_eval s l today code bth dev sig).block_reasons ≠ []
    ∧ (buy_eval s l today code bth dev sig).can_execute = false := by
  simp only [buy_eval, if_pos hfull, hused, hlbn, Bool.false_eq_true]
  refine ⟨rfl, ?_, ?_⟩ <;> split_ifs <;> simp

lemma buy_cooldown_blocks_within (s : Strategy) (code : String) (l : List TradeRecord)
    (today : Nat) (dev bth : ℚ) (d : Nat)
    (hrec : max_option (get_last_trade_date code "buy" l)
        (get_last_trade_date code "extra_buy" l) = some d)
    (hcd : days_since today d < s.buy_cooldown_days) :
    buy_cooldown_blocks s code l today dev bth
      = if dev ≤ bth - s.cooldown_override_extra_pct then []
        else ["买入冷却中（" ++ toString (days_since today d) ++ "/"
          ++ toString s.buy_cooldown_days ++ "天）"] := by
  unfold buy_cooldown_blocks
  rw [hrec]
  simp [hcd]

/-- The low-volatility branch in one statement: hold_buy below quota, none at or
above it, executable exactly below quota, no moving average, no deviation. -/
lemma computeSignal_low_char (s : Strategy) (l : List TradeRecord) (today : Nat)
    (cfg : FundConfig) (hist : List PricePoint) (hvol : cfg.volatility = "low") :
    ((computeSignal s l today cfg hist).signal_type
        = if get_current_shares cfg.code l < cfg.max_shares then "hold_buy" else "none")
    ∧ ((computeSignal s l today cfg hist).can_execute
        = decide (get_current_shares cfg.code l < cfg.max_shares))
    ∧ (computeSignal s l today cfg hist).ma250 = none
    ∧ (computeSignal s l today cfg hist).deviation_pct = none := by
  rw [computeSignal_low s l today cfg hist hvol]
  cases hgl : hist.getLast? <;>
    by_cases hh : get_current_shares cfg.code l < cfg.max_shares <;>
      simp [hgl, hh]

/-! ### Claim theorems -/

/-- C1, counterexample: a ledger holding a single extra_buy record.
get_current_shares counts it (result 1), while the spec's sum over buy and sell
only does not (result 0), so the two disagree on this ledger. -/
theorem C1_counterexample :
    get_current_shares "A" [⟨0, "A", "extra_buy", 1, 1, ""⟩] = 1
    ∧ spec_current_shares "A" [⟨0, "A", "extra_buy", 1, 1, ""⟩] = 0
    ∧ get_current_shares "A" [⟨0, "A", "extra_buy", 1, 1, ""⟩]
        ≠ spec_current_shares "A" [⟨0, "A", "extra_buy", 1, 1, ""⟩] := by
  refine ⟨?_, ?_, ?_⟩ <;> decide

/-- C1, amended: for every trade ledger and fund code, get_current_shares equals
the sum of shares_delta over ALL records of that fund, regardless of action,
floored at 0. -/
theorem C1_current_shares_sums_all_actions (fund : String) (trade_log : List TradeRecord) :
    get_current_shares fund trade_log
      = max (((trade_log.filter (fun row => row.fund_code == fund)).map
          TradeRecord.shares_delta).sum) 0 := by
  unfold get_current_shares
  rw [foldl_shares]
  simp

/-- C7: when the sell threshold triggers, signal_type is extra_sell iff extra
shares are positive (regardless of regular shares) and sell otherwise; a block
is recorded exactly for each of: no position (regular + extra ≤ 0), and sell
cooldown (days since the more recent of last sell and last extra_sell below
sell_cooldown_days); can_execute is true iff no block was added. -/
theorem C7_sell_blocks_and_type (s : Strategy) (l : List TradeRecord) (today : Nat)
    (cfg : FundConfig) (hist : List PricePoint)
    (hvol : cfg.volatility ≠ "low") (hlen : 60 ≤ hist.length)
    (hs : (lookup_thresholds s.thresholds cfg.volatility).sell_pct ≤ deviation_of s hist) :
    ((computeSignal s l today cfg hist).signal_type
        = if 0 < get_extra_shares cfg.code l then "extra_sell" else "sell")
    ∧ ((computeSignal s l today cfg hist).can_execute = true
        ↔ (0 < get_current_shares cfg.code l + get_extra_shares cfg.code l
            ∧ sell_cooldown_hit s cfg.code l today = false))
    ∧ (computeSignal s l today cfg hist).block_reasons.length
        = (if get_current_shares cfg.code l + get_extra_shares cfg.code l ≤ 0 then 1 else 0)
          + (if sell_cooldown_hit s cfg.code l today = true then 1 else 0) := by
  rw [computeSignal_main s l today cfg hist hvol hlen, main_eval_sell s l today cfg hist hs]
  refine ⟨?_, ?_, ?_⟩
  · rw [sell_eval_signal_type]
    simp
  · rw [sell_eval_can_execute]
    simp only [sig_base_held_shares, sig_base_extra_shares, Bool.and_eq_true,
      Bool.not_eq_true', decide_eq_false_iff_not, not_le]
  · rw [sell_eval_blocks_length]
    simp

/-- C7 witness: regular shares 2, extra share 1, deviation 20 at the sell
threshold 20, no sell cooldown: the signal is extra_sell and executable. -/
theorem C7_witness :
    (computeSignal testStrategy
        [⟨0, "X", "buy", 1, 1, ""⟩, ⟨1, "X", "buy", 1, 1, ""⟩, ⟨2, "X", "extra_buy", 1, 1, ""⟩]
        100 ⟨"X", "Fund X", "equity", "mid", 10⟩ (mkHist 2 3)).signal_type = "extra_sell"
    ∧ (computeSignal testStrategy
        [⟨0, "X", "buy", 1, 1, ""⟩, ⟨1, "X", "buy", 1, 1, ""⟩, ⟨2, "X", "extra_buy", 1, 1, ""⟩]
        100 ⟨"X", "Fund X", "equity", "mid", 10⟩ (mkHist 2 3)).can_execute = true := by
  have hdev : deviation_of testStrategy (mkHist 2 3) = 20 := by
    rw [mkHist_deviation]
    norm_num
  have h := C7_sell_blocks_and_type testStrategy
    [⟨0, "X", "buy", 1, 1, ""⟩, ⟨1, "X", "buy", 1, 1, ""⟩, ⟨2, "X", "extra_buy", 1, 1, ""⟩]
    100 ⟨"X", "Fund X", "equity", "mid", 10⟩ (mkHist 2 3)
    (by decide) (by simp [mkHist_length]) (by rw [hdev, testStrategy_mid])
  exact ⟨by rw [h.1, if_pos (by decide)], h.2.1.mpr ⟨by decide, by decide⟩⟩

/-- C8: for a low-volatility fund the signal is hold_buy and executable iff the
held shares are below max_shares, otherwise none and not executable; neither a
moving average nor a deviation is computed, and neither the type nor the
executability depends on the supplied price history. -/
theorem C8_low_volatility (s : Strategy) (l : List TradeRecord) (today : Nat)
    (cfg : FundConfig) (hist : List PricePoint) (hvol : cfg.volatility = "low") :
    ((computeSignal s l today cfg hist).signal_type
        = if get_current_shares cfg.code l < cfg.max_shares then "hold_buy" else "none")
    ∧ ((computeSignal s l today cfg hist).can_execute
        = decide (get_current_shares cfg.code l < cfg.max_shares))
    ∧ (computeSignal s l today cfg hist).ma250 = none
    ∧ (computeSignal s l today cfg hist).deviation_pct = none
    ∧ ∀ hist2 : List PricePoint,
        (computeSignal s l today cfg hist2).signal_type
            = (computeSignal s l today cfg hist).signal_type
          ∧ (computeSignal s l today cfg hist2).can_execute
            = (computeSignal s l today cfg hist).can_execute := by
  have key : ∀ h' : List PricePoint,
      ((computeSignal s l today cfg h').signal_type
          = if get_current_shares cfg.code l < cfg.max_shares then "hold_buy" else "none")
      ∧ ((computeSignal s l today cfg h').can_execute
          = decide (get_current_shares cfg.code l < cfg.max_shares))
      ∧ (computeSignal s l today cfg h').ma250 = none
      ∧ (computeSignal s l today cfg h').deviation_pct = none :=
    fun h' => computeSignal_low_char s l today cfg h' hvol
  exact ⟨(key hist).1, (key hist).2.1, (key hist).2.2.1, (key hist).2.2.2,
    fun h2 => ⟨by rw [(key h2).1, (key hist).1], by rw [(key h2).2.1, (key hist).2.1]⟩⟩

/-- C8 witness: a low-tier fund with quota 1 and an empty ledger, evaluated on an
empty history, yields an executable hold_buy signal. -/
theorem C8_witness :
    (computeSignal testStrategy [] 0 ⟨"B", "Bond", "bond", "low", 1⟩ []).signal_type = "hold_buy"
    ∧ (computeSignal testStrategy [] 0 ⟨"B", "Bond", "bond", "low", 1⟩ []).can_execute = true := by
  have h := C8_low_volatility testStrategy [] 0 ⟨"B", "Bond", "bond", "low", 1⟩ [] rfl
  exact ⟨by rw [h.1, if_pos (by decide)], by rw [h.2.1]; decide⟩

/-- C3: for a non-low fund with quota full, the buy threshold triggered, extra
unused and a last buy nav on record, the extra_buy signal is accepted iff
drop_from_last = (current_nav - last_buy_nav)/last_buy_nav*100 is at most
extra_drop_pct; otherwise it is blocked with a reason and not executable; when
accepted, it is executable exactly when the buy cooldown adds no block. -/
theorem C3_extra_buy_gate (s : Strategy) (l : List TradeRecord) (today : Nat)
    (cfg : FundConfig) (hist : List PricePoint) (lbn : ℚ)
    (hvol : cfg.volatility ≠ "low") (hlen : 60 ≤ hist.length)
    (hns : ¬ deviation_of s hist ≥ (lookup_thresholds s.thresholds cfg.volatility).sell_pct)
    (hb : deviation_of s hist ≤ (lookup_thresholds s.thresholds cfg.volatility).buy_pct)
    (hfull : get_current_shares cfg.code l ≥ cfg.max_shares)
    (hused : has_used_extra cfg.code l = false)
    (hlbn : get_last_buy_nav cfg.code l = some lbn) :
    ((computeSignal s l today cfg hist).signal_type = "extra_buy"
        ↔ (current_nav_of hist - lbn) / lbn * 100 ≤ s.extra_drop_pct)
    ∧ (s.extra_drop_pct < (current_nav_of hist - lbn) / lbn * 100 →
        (computeSignal s l today cfg hist).can_execute = false
        ∧ (computeSignal s l today cfg hist).block_reasons ≠ [])
    ∧ ((current_nav_of hist - lbn) / lbn * 100 ≤ s.extra_drop_pct →
        (computeSignal s l today cfg hist).can_execute
          = (buy_cooldown_blocks s cfg.code l today (deviation_of s hist)
              (lookup_thresholds s.thresholds cfg.volatility).buy_pct).isEmpty) := by
  rw [computeSignal_main s l today cfg hist hvol hlen, main_eval_buy s l today cfg hist hns hb]
  have hfull' : (sig_base s l cfg hist).held_shares ≥ (sig_base s l cfg hist).max_shares := by
    simpa using hfull
  by_cases hdrop : (current_nav_of hist - lbn) / lbn * 100 > s.extra_drop_pct
  · have hr := buy_eval_extra_reject s l today cfg.code
      (lookup_thresholds s.thresholds cfg.volatility).buy_pct (deviation_of s hist)
      (sig_base s l cfg hist) lbn hfull' hused hlbn (by simpa using hdrop)
    refine ⟨?_, fun _ => ⟨hr.2.2, hr.2.1⟩, fun hc => absurd hc (not_le.mpr hdrop)⟩
    rw [hr.1, sig_base_signal_type]
    exact ⟨fun h' => absurd h' (by decide), fun hle => absurd hdrop (not_lt.mpr hle)⟩
  · have ha := buy_eval_extra_accept s l today cfg.code
      (lookup_thresholds s.thresholds cfg.volatility).buy_pct (deviation_of s hist)
      (sig_base s l cfg hist) lbn hfull' hused hlbn (by simpa using hdrop)
    refine ⟨?_, fun hgt => absurd hgt (by simpa using hdrop), fun _ => ha.2.2⟩
    rw [ha.1]
    simp [not_lt.mp (by simpa using hdrop)]

/-- C3 witness: mid tier, max_shares 10, 10 held shares, extra_drop_pct 8, last
buy nav 1.000, current nav 0.900 (a 10 percent drop), buy long out of cooldown:
the signal is extra_buy and executable. -/
theorem C3_witness :
    (computeSignal testStrategy
        [⟨0, "X", "buy", 1, 1, ""⟩, ⟨1, "X", "buy", 1, 1, ""⟩, ⟨2, "X", "buy", 1, 1, ""⟩,
         ⟨3, "X", "buy", 1, 1, ""⟩, ⟨4, "X", "buy", 1, 1, ""⟩, ⟨5, "X", "buy", 1, 1, ""⟩,
         ⟨6, "X", "buy", 1, 1, ""⟩, ⟨7, "X", "buy", 1, 1, ""⟩, ⟨8, "X", "buy", 1, 1, ""⟩,
         ⟨9, "X", "buy", 1, 1, ""⟩]
        100 ⟨"X", "Fund X", "equity", "mid", 10⟩ (mkHist 5 (9/10))).signal_type = "extra_buy"
    ∧ (computeSignal testStrategy
        [⟨0, "X", "buy", 1, 1, ""⟩, ⟨1, "X", "buy", 1, 1, ""⟩, ⟨2, "X", "buy", 1, 1, ""⟩,
         ⟨3, "X", "buy", 1, 1, ""⟩, ⟨4, "X", "buy", 1, 1, ""⟩, ⟨5, "X", "buy", 1, 1, ""⟩,
         ⟨6, "X", "buy", 1, 1, ""⟩, ⟨7, "X", "buy", 1, 1, ""⟩, ⟨8, "X", "buy", 1, 1, ""⟩,
         ⟨9, "X", "buy", 1, 1, ""⟩]
        100 ⟨"X", "Fund X", "equity", "mid", 10⟩ (mkHist 5 (9/10))).can_execute = true := by
  have hdev : deviation_of testStrategy (mkHist 5 (9/10)) = -4100/59 := by
    rw [mkHist_deviation]
    norm_num
  have hdrop : (current_nav_of (mkHist 5 (9/10)) - 1) / 1 * 100 ≤ testStrategy.extra_drop_pct := by
    rw [mkHist_current_nav]
    norm_num [testStrategy]
  have h := C3_extra_buy_gate testStrategy
    [⟨0, "X", "buy", 1, 1, ""⟩, ⟨1, "X", "buy", 1, 1, ""⟩, ⟨2, "X", "buy", 1, 1, ""⟩,
     ⟨3, "X", "buy", 1, 1, ""⟩, ⟨4, "X", "buy", 1, 1, ""⟩, ⟨5, "X", "buy", 1, 1, ""⟩,
     ⟨6, "X", "buy", 1, 1, ""⟩, ⟨7, "X", "buy", 1, 1, ""⟩, ⟨8, "X", "buy", 1, 1, ""⟩,
     ⟨9, "X", "buy", 1, 1, ""⟩]
    100 ⟨"X", "Fund X", "equity", "mid", 10⟩ (mkHist 5 (9/10)) 1
    (by decide)
    (by simp [mkHist_length])
    (by rw [hdev, testStrategy_mid]; norm_num)
    (by rw [hdev, testStrategy_mid]; norm_num)
    (by decide) (by decide) (by decide)
  refine ⟨h.1.mpr hdrop, ?_⟩
  rw [h.2.2 hdrop]
  decide

lemma buy_eval_typed_blocks (s : Strategy) (l : List TradeRecord) (today : Nat)
    (code : String) (bth dev : ℚ) (sig : Signal)
    (hsig0 : sig.signal_type = "")
    (hsig : (buy_eval s l today code bth dev sig).signal_type = "buy"
        ∨ (buy_eval s l today code bth dev sig).signal_type = "extra_buy") :
    (buy_eval s l today code bth dev sig).block_reasons
        = buy_cooldown_blocks s code l today dev bth
    ∧ (buy_eval s l today code bth dev sig).can_execute
        = (buy_cooldown_blocks s code l today dev bth).isEmpty := by
  by_cases hfull : sig.held_shares ≥ sig.max_shares
  · cases hused : has_used_extra code l with
    | false =>
      cases hlbn : get_last_buy_nav code l with
      | none =>
        rw [(buy_eval_no_lbn_reject s l today code bth dev sig hfull hused hlbn).1, hsig0]
          at hsig
        rcases hsig with h | h <;> simp at h
      | some lbn =>
        by_cases hdrop : (sig.current_nav - lbn) / lbn * 100 > s.extra_drop_pct
        · rw [(buy_eval_extra_reject s l today code bth dev sig lbn
            hfull hused hlbn hdrop).1, hsig0] at hsig
          rcases hsig with h | h <;> simp at h
        · have ha := buy_eval_extra_accept s l today code bth dev sig lbn hfull hused hlbn hdrop
          exact ⟨ha.2.1, ha.2.2⟩
    | true =>
      rw [(buy_eval_used_reject s l today code bth dev sig hfull hused).1, hsig0] at hsig
      rcases hsig with h | h <;> simp at h
  · have hn := buy_eval_not_full s l today code bth dev sig hfull
    exact ⟨hn.2.1, hn.2.2⟩

/-- C4: when a buy or extra_buy signal is inside the buy cooldown window, the
cooldown block is added iff the deviation exceeds buy_pct minus
cooldown_override_extra_pct; a deviation at or below that override threshold
bypasses the cooldown, and executability is exactly the absence of the block. -/
theorem C4_buy_cooldown_override (s : Strategy) (l : List TradeRecord) (today : Nat)
    (cfg : FundConfig) (hist : List PricePoint) (d : Nat)
    (hvol : cfg.volatility ≠ "low") (hlen : 60 ≤ hist.length)
    (hns : ¬ deviation_of s hist ≥ (lookup_thresholds s.thresholds cfg.volatility).sell_pct)
    (hb : deviation_of s hist ≤ (lookup_thresholds s.thresholds cfg.volatility).buy_pct)
    (hsig : (computeSignal s l today cfg hist).signal_type = "buy"
        ∨ (computeSignal s l today cfg hist).signal_type = "extra_buy")
    (hrec : max_option (get_last_trade_date cfg.code "buy" l)
        (get_last_trade_date cfg.code "extra_buy" l) = some d)
    (hcd : days_since today d < s.buy_cooldown_days) :
    ((computeSignal s l today cfg hist).block_reasons = []
        ↔ deviation_of s hist
            ≤ (lookup_thresholds s.thresholds cfg.volatility).buy_pct
              - s.cooldown_override_extra_pct)
    ∧ ((computeSignal s l today cfg hist).can_execute = true
        ↔ deviation_of s hist
            ≤ (lookup_thresholds s.thresholds cfg.volatility).buy_pct
              - s.cooldown_override_extra_pct) := by
  rw [computeSignal_main s l today cfg hist hvol hlen,
    main_eval_buy s l today cfg hist hns hb] at hsig ⊢
  have hblocks := buy_eval_typed_blocks s l today cfg.code
    (lookup_thresholds s.thresholds cfg.volatility).buy_pct (deviation_of s hist)
    (sig_base s l cfg hist) (sig_base_signal_type s l cfg hist) hsig
  have hcdb := buy_cooldown_blocks_within s cfg.code l today (deviation_of s hist)
    (lookup_thresholds s.thresholds cfg.volatility).buy_pct d hrec hcd
  constructor
  · rw [hblocks.1, hcdb]
    by_cases hov : deviation_of s hist
        ≤ (lookup_thresholds s.thresholds cfg.volatility).buy_pct
          - s.cooldown_override_extra_pct <;> simp [hov]
  · rw [hblocks.2, hcdb]
    by_cases hov : deviation_of s hist
        ≤ (lookup_thresholds s.thresholds cfg.volatility).buy_pct
          - s.cooldown_override_extra_pct <;> simp [hov]

/-- C4 witness: buy_pct -15, override 5, last buy 10 days ago, 30-day cooldown.
A buy signal at deviation -21 bypasses the cooldown (executable), at -16 it is
blocked; and an extra_buy signal (quota 10 full, drop -10 percent within the
extra allowance) whose last buy was 1 day ago also bypasses at a deviation
below the override threshold. -/
theorem C4_witness :
    (computeSignal testStrategy [⟨90, "X", "buy", 1, 1, ""⟩] 100
        ⟨"X", "Fund X", "equity", "mid", 10⟩ (mkHist 121 79)).can_execute = true
    ∧ (computeSignal testStrategy [⟨90, "X", "buy", 1, 1, ""⟩] 100
        ⟨"X", "Fund X", "equity", "mid", 10⟩ (mkHist 29 21)).can_execute = false
    ∧ (computeSignal testStrategy
        [⟨90, "X", "buy", 1, 1, ""⟩, ⟨91, "X", "buy", 1, 1, ""⟩, ⟨92, "X", "buy", 1, 1, ""⟩,
         ⟨93, "X", "buy", 1, 1, ""⟩, ⟨94, "X", "buy", 1, 1, ""⟩, ⟨95, "X", "buy", 1, 1, ""⟩,
         ⟨96, "X", "buy", 1, 1, ""⟩, ⟨97, "X", "buy", 1, 1, ""⟩, ⟨98, "X", "buy", 1, 1, ""⟩,
         ⟨99, "X", "buy", 1, 1, ""⟩] 100
        ⟨"X", "Fund X", "equity", "mid", 10⟩ (mkHist 5 (9/10))).signal_type = "extra_buy"
    ∧ (computeSignal testStrategy
        [⟨90, "X", "buy", 1, 1, ""⟩, ⟨91, "X", "buy", 1, 1, ""⟩, ⟨92, "X", "buy", 1, 1, ""⟩,
         ⟨93, "X", "buy", 1, 1, ""⟩, ⟨94, "X", "buy", 1, 1, ""⟩, ⟨95, "X", "buy", 1, 1, ""⟩,
         ⟨96, "X", "buy", 1, 1, ""⟩, ⟨97, "X", "buy", 1, 1, ""⟩, ⟨98, "X", "buy", 1, 1, ""⟩,
         ⟨99, "X", "buy", 1, 1, ""⟩] 100
        ⟨"X", "Fund X", "equity", "mid", 10⟩ (mkHist 5 (9/10))).can_execute = true := by
  have hdev1 : deviation_of testStrategy (mkHist 121 79) = -21 := by
    rw [mkHist_deviation]
    norm_num
  have hdev2 : deviation_of testStrategy (mkHist 29 21) = -16 := by
    rw [mkHist_deviation]
    norm_num
  have hdev3 : deviation_of testStrategy (mkHist 5 (9/10)) = -4100/59 := by
    rw [mkHist_deviation]
    norm_num
  have ht1 : (computeSignal testStrategy [⟨90, "X", "buy", 1, 1, ""⟩] 100
      ⟨"X", "Fund X", "equity", "mid", 10⟩ (mkHist 121 79)).signal_type = "buy" := by
    rw [computeSignal_main testStrategy [⟨90, "X", "buy", 1, 1, ""⟩] 100
        ⟨"X", "Fund X", "equity", "mid", 10⟩ (mkHist 121 79) (by decide)
        (by simp [mkHist_length]),
      main_eval_buy testStrategy [⟨90, "X", "buy", 1, 1, ""⟩] 100
        ⟨"X", "Fund X", "equity", "mid", 10⟩ (mkHist 121 79)
        (by rw [hdev1, testStrategy_mid]; norm_num)
        (by rw [hdev1, testStrategy_mid]; norm_num)]
    exact (buy_eval_not_full testStrategy [⟨90, "X", "buy", 1, 1, ""⟩] 100 "X"
      (lookup_thresholds testStrategy.thresholds "mid").buy_pct
      (deviation_of testStrategy (mkHist 121 79))
      (sig_base testStrategy [⟨90, "X", "buy", 1, 1, ""⟩]
        ⟨"X", "Fund X", "equity", "mid", 10⟩ (mkHist 121 79)) (by decide)).1
  have ht2 : (computeSignal testStrategy [⟨90, "X", "buy", 1, 1, ""⟩] 100
      ⟨"X", "Fund X", "equity", "mid", 10⟩ (mkHist 29 21)).signal_type = "buy" := by
    rw [computeSignal_main testStrategy [⟨90, "X", "buy", 1, 1, ""⟩] 100
        ⟨"X", "Fund X", "equity", "mid", 10⟩ (mkHist 29 21) (by decide)
        (by simp [mkHist_length]),
      main_eval_buy testStrategy [⟨90, "X", "buy", 1, 1, ""⟩] 100
        ⟨"X", "Fund X", "equity", "mid", 10⟩ (mkHist 29 21)
        (by rw [hdev2, testStrategy_mid]; norm_num)
        (by rw [hdev2, testStrategy_mid]; norm_num)]
    exact (buy_eval_not_full testStrategy [⟨90, "X", "buy", 1, 1, ""⟩] 100 "X"
      (lookup_thresholds testStrategy.thresholds "mid").buy_pct
      (deviation_of testStrategy (mkHist 29 21))
      (sig_base testStrategy [⟨90, "X", "buy", 1, 1, ""⟩]
        ⟨"X", "Fund X", "equity", "mid", 10⟩ (mkHist 29 21)) (by decide)).1
  have ht3 : (computeSignal testStrategy
      [⟨90, "X", "buy", 1, 1, ""⟩, ⟨91, "X", "buy", 1, 1, ""⟩, ⟨92, "X", "buy", 1, 1, ""⟩,
       ⟨93, "X", "buy", 1, 1, ""⟩, ⟨94, "X", "buy", 1, 1, ""⟩, ⟨95, "X", "buy", 1, 1, ""⟩,
       ⟨96, "X", "buy", 1, 1, ""⟩, ⟨97, "X", "buy", 1, 1, ""⟩, ⟨98, "X", "buy", 1, 1, ""⟩,
       ⟨99, "X", "buy", 1, 1, ""⟩] 100
      ⟨"X", "Fund X", "equity", "mid", 10⟩ (mkHist 5 (9/10))).signal_type = "extra_buy" := by
    rw [computeSignal_main testStrategy
        [⟨90, "X", "buy", 1, 1, ""⟩, ⟨91, "X", "buy", 1, 1, ""⟩, ⟨92, "X", "buy", 1, 1, ""⟩,
         ⟨93, "X", "buy", 1, 1, ""⟩, ⟨94, "X", "buy", 1, 1, ""⟩, ⟨95, "X", "buy", 1, 1, ""⟩,
         ⟨96, "X", "buy", 1, 1, ""⟩, ⟨97, "X", "buy", 1, 1, ""⟩, ⟨98, "X", "buy", 1, 1, ""⟩,
         ⟨99, "X", "buy", 1, 1, ""⟩] 100
        ⟨"X", "Fund X", "equity", "mid", 10⟩ (mkHist 5 (9/10)) (by decide)
        (by simp [mkHist_length]),
      main_eval_buy testStrategy
        [⟨90, "X", "buy", 1, 1, ""⟩, ⟨91, "X", "buy", 1, 1, ""⟩, ⟨92, "X", "buy", 1, 1, ""⟩,
         ⟨93, "X", "buy", 1, 1, ""⟩, ⟨94, "X", "buy", 1, 1, ""⟩, ⟨95, "X", "buy", 1, 1, ""⟩,
         ⟨96, "X", "buy", 1, 1, ""⟩, ⟨97, "X", "buy", 1, 1, ""⟩, ⟨98, "X", "buy", 1, 1, ""⟩,
         ⟨99, "X", "buy", 1, 1, ""⟩] 100
        ⟨"X", "Fund X", "equity", "mid", 10⟩ (mkHist 5 (9/10))
        (by rw [hdev3, testStrategy_mid]; norm_num)
        (by rw [hdev3, testStrategy_mid]; norm_num)]
    exact (buy_eval_extra_accept testStrategy
      [⟨90, "X", "buy", 1, 1, ""⟩, ⟨91, "X", "buy", 1, 1, ""⟩, ⟨92, "X", "buy", 1, 1, ""⟩,
       ⟨93, "X", "buy", 1, 1, ""⟩, ⟨94, "X", "buy", 1, 1, ""⟩, ⟨95, "X", "buy", 1, 1, ""⟩,
       ⟨96, "X", "buy", 1, 1, ""⟩, ⟨97, "X", "buy", 1, 1, ""⟩, ⟨98, "X", "buy", 1, 1, ""⟩,
       ⟨99, "X", "buy", 1, 1, ""⟩] 100 "X"
      (lookup_thresholds testStrategy.thresholds "mid").buy_pct
      (deviation_of testStrategy (mkHist 5 (9/10)))
      (sig_base testStrategy
        [⟨90, "X", "buy", 1, 1, ""⟩, ⟨91, "X", "buy", 1, 1, ""⟩, ⟨92, "X", "buy", 1, 1, ""⟩,
         ⟨93, "X", "buy", 1, 1, ""⟩, ⟨94, "X", "buy", 1, 1, ""⟩, ⟨95, "X", "buy", 1, 1, ""⟩,
         ⟨96, "X", "buy", 1, 1, ""⟩, ⟨97, "X", "buy", 1, 1, ""⟩, ⟨98, "X", "buy", 1, 1, ""⟩,
         ⟨99, "X", "buy", 1, 1, ""⟩]
        ⟨"X", "Fund X", "equity", "mid", 10⟩ (mkHist 5 (9/10))) 1
      (by decide) (by decide) (by decide)
      (by rw [sig_base_current_nav, mkHist_current_nav]; norm_num [testStrategy])).1
  have h1 := C4_buy_cooldown_override testStrategy [⟨90, "X", "buy", 1, 1, ""⟩] 100
    ⟨"X", "Fund X", "equity", "mid", 10⟩ (mkHist 121 79) 90
    (by decide) (by simp [mkHist_length])
    (by rw [hdev1, testStrategy_mid]; norm_num)
    (by rw [hdev1, testStrategy_mid]; norm_num)
    (Or.inl ht1) (by decide) (by decide)
  have h2 := C4_buy_cooldown_override testStrategy [⟨90, "X", "buy", 1, 1, ""⟩] 100
    ⟨"X", "Fund X", "equity", "mid", 10⟩ (mkHist 29 21) 90
    (by decide) (by simp [mkHist_length])
    (by rw [hdev2, testStrategy_mid]; norm_num)
    (by rw [hdev2, testStrategy_mid]; norm_num)
    (Or.inl ht2) (by decide) (by decide)
  have h3 := C4_buy_cooldown_override testStrategy
    [⟨90, "X", "buy", 1, 1, ""⟩, ⟨91, "X", "buy", 1, 1, ""⟩, ⟨92, "X", "buy", 1, 1, ""⟩,
     ⟨93, "X", "buy", 1, 1, ""⟩, ⟨94, "X", "buy", 1, 1, ""⟩, ⟨95, "X", "buy", 1, 1, ""⟩,
     ⟨96, "X", "buy", 1, 1, ""⟩, ⟨97, "X", "buy", 1, 1, ""⟩, ⟨98, "X", "buy", 1, 1, ""⟩,
     ⟨99, "X", "buy", 1, 1, ""⟩] 100
    ⟨"X", "Fund X", "equity", "mid", 10⟩ (mkHist 5 (9/10)) 99
    (by decide) (by simp [mkHist_length])
    (by rw [hdev3, testStrategy_mid]; norm_num)
    (by rw [hdev3, testStrategy_mid]; norm_num)
    (Or.inr ht3) (by decide) (by decide)
  refine ⟨h1.2.mpr (by rw [hdev1, testStrategy_mid]; norm_num [testStrategy]), ?_, ht3,
    h3.2.mpr (by rw [hdev3, testStrategy_mid]; norm_num [testStrategy])⟩
  have hnb : ¬ deviation_of testStrategy (mkHist 29 21)
      ≤ (lookup_thresholds testStrategy.thresholds
          (FundConfig.mk "X" "Fund X" "equity" "mid" 10).volatility).buy_pct
        - testStrategy.cooldown_override_extra_pct := by
    rw [hdev2, testStrategy_mid]
    norm_num [testStrategy]
  cases hce : (computeSignal testStrategy [⟨90, "X", "buy", 1, 1, ""⟩] 100
      ⟨"X", "Fund X", "equity", "mid", 10⟩ (mkHist 29 21)).can_execute
  · rfl
  · exact absurd (h2.2.mp hce) hnb

/-- C5: a fund whose ledger already holds an extra_buy record never receives an
extra_buy signal, and appending further records never clears the used-extra
flag, so extra_buy can occur at most once ever per fund. -/
theorem C5_extra_buy_once (s : Strategy) (l : List TradeRecord) (today : Nat)
    (cfg : FundConfig) (hist : List PricePoint)
    (hused : has_used_extra cfg.code l = true) :
    (computeSignal s l today cfg hist).signal_type ≠ "extra_buy"
    ∧ ∀ ext : List TradeRecord, has_used_extra cfg.code (l ++ ext) = true := by
  constructor
  · by_cases hvol : cfg.volatility = "low"
    · rw [(computeSignal_low_char s l today cfg hist hvol).1]
      split <;> simp
    · by_cases hlen : hist.length < 60
      · rw [computeSignal_short s l today cfg hist hvol hlen]
        simp
      · rw [computeSignal_main s l today cfg hist hvol (by omega)]
        by_cases hs : deviation_of s hist
            ≥ (lookup_thresholds s.thresholds cfg.volatility).sell_pct
        · rw [main_eval_sell s l today cfg hist hs, sell_eval_signal_type]
          split <;> simp
        · by_cases hb : deviation_of s hist
              ≤ (lookup_thresholds s.thresholds cfg.volatility).buy_pct
          · rw [main_eval_buy s l today cfg hist hs hb]
            by_cases hfull : (sig_base s l cfg hist).held_shares
                ≥ (sig_base s l cfg hist).max_shares
            · rw [(buy_eval_used_reject s l today cfg.code
                (lookup_thresholds s.thresholds cfg.volatility).buy_pct
                (deviation_of s hist) (sig_base s l cfg hist) hfull hused).1,
                sig_base_signal_type]
              simp
            · rw [(buy_eval_not_full s l today cfg.code
                (lookup_thresholds s.thresholds cfg.volatility).buy_pct
                (deviation_of s hist) (sig_base s l cfg hist) hfull).1]
              simp
          · rw [(main_eval_none s l today cfg hist hs hb).1]
            simp
  · intro ext
    unfold has_used_extra at hused ⊢
    rw [List.any_append, hused, Bool.true_or]

/-- C5 witness: a ledger with an extra_buy record for fund X; the computed
signal is not extra_buy, and the flag survives a further append. -/
theorem C5_witness :
    (computeSignal testStrategy [⟨0, "X", "extra_buy", 1, 1, ""⟩] 0
        ⟨"X", "Fund X", "equity", "mid", 10⟩ []).signal_type ≠ "extra_buy"
    ∧ has_used_extra "X"
        ([⟨0, "X", "extra_buy", 1, 1, ""⟩] ++ [⟨1, "X", "sell", 1, -1, ""⟩]) = true := by
  have h := C5_extra_buy_once testStrategy [⟨0, "X", "extra_buy", 1, 1, ""⟩] 0
    ⟨"X", "Fund X", "equity", "mid", 10⟩ [] (by decide)
  exact ⟨h.1, h.2 [⟨1, "X", "sell", 1, -1, ""⟩]⟩

/-- C6: get_avg_cost is a running weighted average in which a disposal removes
shares at the average cost current at the time of disposal, so a disposal that
leaves a position leaves the average cost unchanged; buy 1 at 10 and 1 at 12
gives cost 11, selling 1 leaves cost 11 with 1 share held; and the query is
none whenever no acquired shares remain held. -/
theorem C6_avg_cost_disposal_invariant (l : List TradeRecord) (r : TradeRecord)
    (fund : String) (a : ℚ)
    (havg : get_avg_cost fund l = some a)
    (hfund : r.fund_code = fund)
    (hneg : r.shares_delta < 0)
    (hrem : 0 < (avg_cost_state fund l).2
        - min (-r.shares_delta) (avg_cost_state fund l).2) :
    get_avg_cost fund (l ++ [r]) = some a
    ∧ (∀ (f : String) (l2 : List TradeRecord),
        (avg_cost_state f l2).2 ≤ 0 → get_avg_cost f l2 = none)
    ∧ get_avg_cost "A" [⟨0, "A", "buy", 10, 1, ""⟩, ⟨1, "A", "buy", 12, 1, ""⟩] = some 11
    ∧ get_avg_cost "A" [⟨0, "A", "buy", 10, 1, ""⟩, ⟨1, "A", "buy", 12, 1, ""⟩,
        ⟨2, "A", "sell", 11, -1, ""⟩] = some 11
    ∧ get_current_shares "A" [⟨0, "A", "buy", 10, 1, ""⟩, ⟨1, "A", "buy", 12, 1, ""⟩,
        ⟨2, "A", "sell", 11, -1, ""⟩] = 1 := by
  refine ⟨?_, ?_, ?_, ?_, by decide⟩
  · have hpos : (avg_cost_state fund l).2 > 0 := by
      unfold get_avg_cost at havg
      by_cases h : (avg_cost_state fund l).2 > 0
      · exact h
      · rw [if_neg h] at havg
        cases havg
    have heq : (avg_cost_state fund l).1 / ((avg_cost_state fund l).2 : ℚ) = a := by
      unfold get_avg_cost at havg
      rw [if_pos hpos] at havg
      exact Option.some.inj havg
    have hstep : avg_cost_state fund (l ++ [r])
        = avg_cost_step fund (avg_cost_state fund l) r := by
      unfold avg_cost_state
      rw [List.foldl_append]
      rfl
    set st := avg_cost_state fund l with hst
    set sold := min (-r.shares_delta) st.2 with hsold
    have hstep2 : avg_cost_step fund st r
        = (st.1 - (sold : ℚ) * (st.1 / (st.2 : ℚ)), st.2 - sold) := by
      unfold avg_cost_step
      rw [if_pos (beq_iff_eq.mpr hfund), if_neg (by omega : ¬ r.shares_delta > 0),
        if_pos hneg, if_pos hpos]
    unfold get_avg_cost
    rw [hstep, hstep2]
    rw [if_pos hrem]
    congr 1
    rw [← heq]
    have hz : (st.2 : ℚ) ≠ 0 := Int.cast_ne_zero.mpr (by omega)
    have hz2 : ((st.2 - sold : Int) : ℚ) ≠ 0 := Int.cast_ne_zero.mpr (by omega)
    push_cast
    push_cast at hz2
    field_simp
    ring
  · intro f l2 h
    unfold get_avg_cost
    rw [if_neg (by omega)]
  · norm_num [get_avg_cost, avg_cost_state, avg_cost_step, List.foldl]
  · norm_num [get_avg_cost, avg_cost_state, avg_cost_step, List.foldl]

/-- C6 witness: buy 1 at 10 and 1 at 12 (average cost 11), then sell 1 at 11;
the invariance theorem applies and keeps the average cost at 11. -/
theorem C6_witness :
    get_avg_cost "A" ([⟨0, "A", "buy", 10, 1, ""⟩, ⟨1, "A", "buy", 12, 1, ""⟩]
      ++ [⟨2, "A", "sell", 11, -1, ""⟩]) = some 11 := by
  have h := C6_avg_cost_disposal_invariant
    [⟨0, "A", "buy", 10, 1, ""⟩, ⟨1, "A", "buy", 12, 1, ""⟩]
    ⟨2, "A", "sell", 11, -1, ""⟩ "A" 11
    (by norm_num [get_avg_cost, avg_cost_state, avg_cost_step, List.foldl])
    rfl (by decide) (by decide)
  exact h.1

/-- C9: a non-low fund with fewer than 60 history points gets a none signal that
is not executable, with no moving average and no deviation computed, and a
reason string naming the number of points available. -/
theorem C9_short_history (s : Strategy) (l : List TradeRecord) (today : Nat)
    (cfg : FundConfig) (hist : List PricePoint)
    (hvol : cfg.volatility ≠ "low") (hlen : hist.length < 60) :
    (computeSignal s l today cfg hist).signal_type = "none"
    ∧ (computeSignal s l today cfg hist).can_execute = false
    ∧ (computeSignal s l today cfg hist).ma250 = none
    ∧ (computeSignal s l today cfg hist).deviation_pct = none
    ∧ ∃ pre post : String,
        (computeSignal s l today cfg hist).reason
          = pre ++ toString hist.length ++ post := by
  rw [computeSignal_short s l today cfg hist hvol hlen]
  exact ⟨rfl, rfl, rfl, rfl, "历史数据不足（仅", "天），跳过", rfl⟩

/-- C9 witness: 40 points supplied to a mid-tier fund; the signal is none, not
executable, and the reason names the 40 available points. -/
theorem C9_witness :
    (computeSignal testStrategy [] 0 ⟨"Y", "Fund Y", "equity", "mid", 10⟩
        (List.replicate 40 ⟨0, 1⟩)).signal_type = "none"
    ∧ (computeSignal testStrategy [] 0 ⟨"Y", "Fund Y", "equity", "mid", 10⟩
        (List.replicate 40 ⟨0, 1⟩)).can_execute = false
    ∧ ∃ pre post : String,
        (computeSignal testStrategy [] 0 ⟨"Y", "Fund Y", "equity", "mid", 10⟩
          (List.replicate 40 ⟨0, 1⟩)).reason = pre ++ toString (40 : ℕ) ++ post := by
  have h := C9_short_history testStrategy [] 0 ⟨"Y", "Fund Y", "equity", "mid", 10⟩
    (List.replicate 40 ⟨0, 1⟩) (by decide) (by simp)
  refine ⟨h.1, h.2.1, ?_⟩
  obtain ⟨pre, post, hp⟩ := h.2.2.2.2
  exact ⟨pre, post, by simpa using hp⟩

/-! ### Global signal_type and executability case analyses -/

lemma buy_eval_signal_type_cases (s : Strategy) (l : List TradeRecord) (today : Nat)
    (code : String) (bth dev : ℚ) (sig : Signal) :
    (buy_eval s l today code bth dev sig).signal_type = sig.signal_type
    ∨ (buy_eval s l today code bth dev sig).signal_type = "buy"
    ∨ (buy_eval s l today code bth dev sig).signal_type = "extra_buy" := by
  by_cases hfull : sig.held_shares ≥ sig.max_shares
  · cases hused : has_used_extra code l with
    | false =>
      cases hlbn : get_last_buy_nav code l with
      | none =>
        exact Or.inl (buy_eval_no_lbn_reject s l today code bth dev sig hfull hused hlbn).1
      | some lbn =>
        by_cases hdrop : (sig.current_nav - lbn) / lbn * 100 > s.extra_drop_pct
        · exact Or.inl
            (buy_eval_extra_reject s l today code bth dev sig lbn hfull hused hlbn hdrop).1
        · exact Or.inr (Or.inr
            (buy_eval_extra_accept s l today code bth dev sig lbn hfull hused hlbn hdrop).1)
    | true => exact Or.inl (buy_eval_used_reject s l today code bth dev sig hfull hused).1
  · exact Or.inr (Or.inl (buy_eval_not_full s l today code bth dev sig hfull).1)

lemma buy_eval_exec (s : Strategy) (l : List TradeRecord) (today : Nat)
    (code : String) (bth dev : ℚ) (sig : Signal)
    (h : (buy_eval s l today code bth dev sig).can_execute = true) :
    (buy_eval s l today code bth dev sig).signal_type = "buy"
    ∨ (buy_eval s l today code bth dev sig).signal_type = "extra_buy" := by
  by_cases hfull : sig.held_shares ≥ sig.max_shares
  · cases hused : has_used_extra code l with
    | false =>
      cases hlbn : get_last_buy_nav code l with
      | none =>
        rw [(buy_eval_no_lbn_reject s l today code bth dev sig hfull hused hlbn).2.2] at h
        exact absurd h (by decide)
      | some lbn =>
        by_cases hdrop : (sig.current_nav - lbn) / lbn * 100 > s.extra_drop_pct
        · rw [(buy_eval_extra_reject s l today code bth dev sig lbn
            hfull hused hlbn hdrop).2.2] at h
          exact absurd h (by decide)
        · exact Or.inr
            (buy_eval_extra_accept s l today code bth dev sig lbn hfull hused hlbn hdrop).1
    | true =>
      rw [(buy_eval_used_reject s l today code bth dev sig hfull hused).2.2] at h
      exact absurd h (by decide)
  · exact Or.inl (buy_eval_not_full s l today code bth dev sig hfull).1

lemma computeSignal_type_cases (s : Strategy) (l : List TradeRecord) (today : Nat)
    (cfg : FundConfig) (hist : List PricePoint) :
    (computeSignal s l today cfg hist).signal_type
      ∈ ["buy", "sell", "extra_buy", "extra_sell", "hold_buy", "none", ""] := by
  by_cases hvol : cfg.volatility = "low"
  · rw [(computeSignal_low_char s l today cfg hist hvol).1]
    split <;> simp
  · by_cases hlen : hist.length < 60
    · rw [computeSignal_short s l today cfg hist hvol hlen]
      simp
    · rw [computeSignal_main s l today cfg hist hvol (by omega)]
      by_cases hs : deviation_of s hist
          ≥ (lookup_thresholds s.thresholds cfg.volatility).sell_pct
      · rw [main_eval_sell s l today cfg hist hs, sell_eval_signal_type]
        split <;> simp
      · by_cases hb : deviation_of s hist
            ≤ (lookup_thresholds s.thresholds cfg.volatility).buy_pct
        · rw [main_eval_buy s l today cfg hist hs hb]
          rcases buy_eval_signal_type_cases s l today cfg.code
              (lookup_thresholds s.thresholds cfg.volatility).buy_pct
              (deviation_of s hist) (sig_base s l cfg hist) with h | h | h <;>
            rw [h] <;> simp
        · rw [(main_eval_none s l today cfg hist hs hb).1]
          simp

lemma computeSignal_exec_types (s : Strategy) (l : List TradeRecord) (today : Nat)
    (cfg : FundConfig) (hist : List PricePoint)
    (h : (computeSignal s l today cfg hist).can_execute = true) :
    (computeSignal s l today cfg hist).signal_type
      ∈ ["hold_buy", "buy", "extra_buy", "sell", "extra_sell"] := by
  by_cases hvol : cfg.volatility = "low"
  · have hc := computeSignal_low_char s l today cfg hist hvol
    rw [hc.1]
    rw [hc.2.1] at h
    rw [if_pos (of_decide_eq_true h)]
    simp
  · by_cases hlen : hist.length < 60
    · rw [computeSignal_short s l today cfg hist hvol hlen] at h
      simp at h
    · rw [computeSignal_main s l today cfg hist hvol (by omega)] at h ⊢
      by_cases hs : deviation_of s hist
          ≥ (lookup_thresholds s.thresholds cfg.volatility).sell_pct
      · rw [main_eval_sell s l today cfg hist hs, sell_eval_signal_type]
        split <;> simp
      · by_cases hb : deviation_of s hist
            ≤ (lookup_thresholds s.thresholds cfg.volatility).buy_pct
        · rw [main_eval_buy s l today cfg hist hs hb] at h ⊢
          rcases buy_eval_exec s l today cfg.code
              (lookup_thresholds s.thresholds cfg.volatility).buy_pct
              (deviation_of s hist) (sig_base s l cfg hist) h with h' | h' <;>
            rw [h'] <;> simp
        · rw [(main_eval_none s l today cfg hist hs hb).2] at h
          simp at h

/-! ### Executor lemmas -/

lemma execute_step_keeps (acc : List Signal × List TradeRecord) (sig x : Signal)
    (h : x ∈ acc.1) : x ∈ (execute_step acc sig).1 := by
  unfold execute_step
  split
  · exact h
  · split
    · exact List.mem_append_left _ h
    · split
      · exact List.mem_append_left _ h
      · split
        · exact List.mem_append_left _ h
        · split
          · exact List.mem_append_left _ h
          · exact h

lemma foldl_execute_keeps (sigs : List Signal) :
    ∀ (acc : List Signal × List TradeRecord) (x : Signal),
      x ∈ acc.1 → x ∈ (sigs.foldl execute_step acc).1 := by
  induction sigs with
  | nil => exact fun acc x h => h
  | cons a t ih => exact fun acc x h => ih _ x (execute_step_keeps acc a x h)

lemma execute_step_self (acc : List Signal × List TradeRecord) (sig : Signal)
    (hc : sig.can_execute = true)
    (ht : sig.signal_type ∈ ["hold_buy", "buy", "extra_buy", "sell", "extra_sell"]) :
    sig ∈ (execute_step acc sig).1 := by
  simp only [List.mem_cons, List.not_mem_nil, or_false] at ht
  rcases ht with h | h | h | h | h <;> simp [execute_step, hc, h]

lemma mem_foldl_execute (sigs : List Signal) :
    ∀ (acc : List Signal × List TradeRecord) (sig : Signal), sig ∈ sigs →
      sig.can_execute = true →
      sig.signal_type ∈ ["hold_buy", "buy", "extra_buy", "sell", "extra_sell"] →
      sig ∈ (sigs.foldl execute_step acc).1 := by
  induction sigs with
  | nil => intro acc sig h; cases h
  | cons a t ih =>
    intro acc sig h hc ht
    rcases List.mem_cons.mp h with rfl | hmem
    · exact foldl_execute_keeps t _ sig (execute_step_self acc sig hc ht)
    · exact ih _ sig hmem hc ht

/-- C2, amended: every signal produced by compute_signals has its signal_type in
the enumeration buy, sell, extra_buy, extra_sell, hold_buy, none, or the unset
empty value; the unset value occurs when the buy threshold triggers with the
quota full and the extra-buy route is blocked. -/
theorem C2_signal_type_enumeration (s : Strategy) (funds : List FundConfig)
    (l : List TradeRecord) (today : Nat) (histories : String → List PricePoint)
    (sig : Signal) (hmem : sig ∈ compute_signals s funds l today histories) :
    sig.signal_type ∈ ["buy", "sell", "extra_buy", "extra_sell", "hold_buy", "none", ""] := by
  obtain ⟨cfg, hcfg, rfl⟩ := List.mem_map.mp hmem
  exact computeSignal_type_cases s l today cfg (histories cfg.code)

/-- C2, counterexample: a mid-tier fund with max_shares 0, an empty ledger and a
dipping history; the quota is full, there is no last buy record, so the buy
branch blocks and leaves signal_type at the unset empty string, which is
outside the claimed enumeration. -/
theorem C2_counterexample :
    ((compute_signals testStrategy [⟨"X", "Fund X", "equity", "mid", 0⟩] [] 0
        (fun _ => mkHist 5 (9/10))).map Signal.signal_type = [""])
    ∧ "" ∉ (["buy", "sell", "extra_buy", "extra_sell", "hold_buy", "none"] : List String) := by
  constructor
  · have hdev : deviation_of testStrategy (mkHist 5 (9/10)) = -4100/59 := by
      rw [mkHist_deviation]
      norm_num
    simp only [compute_signals, List.map_cons, List.map_nil, List.cons.injEq, and_true]
    rw [computeSignal_main testStrategy [] 0 ⟨"X", "Fund X", "equity", "mid", 0⟩
        (mkHist 5 (9/10)) (by decide) (by simp [mkHist_length]),
      main_eval_buy testStrategy [] 0 ⟨"X", "Fund X", "equity", "mid", 0⟩ (mkHist 5 (9/10))
        (by rw [hdev, testStrategy_mid]; norm_num)
        (by rw [hdev, testStrategy_mid]; norm_num)]
    rw [(buy_eval_no_lbn_reject testStrategy [] 0 "X"
        (lookup_thresholds testStrategy.thresholds "mid").buy_pct
        (deviation_of testStrategy (mkHist 5 (9/10)))
        (sig_base testStrategy [] ⟨"X", "Fund X", "equity", "mid", 0⟩ (mkHist 5 (9/10)))
        (by simp [get_current_shares]) (by decide) (by decide)).1]
    exact sig_base_signal_type testStrategy [] ⟨"X", "Fund X", "equity", "mid", 0⟩
      (mkHist 5 (9/10))
  · decide

/-- C2 witness: a concrete run over one low-tier fund; its signal_type lies in
the amended enumeration. -/
theorem C2_witness :
    (computeSignal testStrategy [] 5 ⟨"B2", "Bond 2", "bond", "low", 3⟩ []).signal_type
      ∈ ["buy", "sell", "extra_buy", "extra_sell", "hold_buy", "none", ""] :=
  C2_signal_type_enumeration testStrategy [⟨"B2", "Bond 2", "bond", "low", 3⟩] [] 5
    (fun _ => []) _ (by simp [compute_signals])

/-- C10: every signal of a run with can_execute true has signal_type among
hold_buy, buy, extra_buy, sell, extra_sell — never none or unset — and the
executor therefore executes it (it appears in execute_signals' executed list). -/
theorem C10_executable_signals (s : Strategy) (funds : List FundConfig)
    (l : List TradeRecord) (today : Nat) (histories : String → List PricePoint)
    (sig : Signal) (hmem : sig ∈ compute_signals s funds l today histories)
    (hexec : sig.can_execute = true) :
    sig.signal_type ∈ ["hold_buy", "buy", "extra_buy", "sell", "extra_sell"]
    ∧ sig ∈ (execute_signals (compute_signals s funds l today histories)).1 := by
  have htype : sig.signal_type ∈ ["hold_buy", "buy", "extra_buy", "sell", "extra_sell"] := by
    obtain ⟨cfg, hcfg, rfl⟩ := List.mem_map.mp hmem
    exact computeSignal_exec_types s l today cfg (histories cfg.code) hexec
  exact ⟨htype, mem_foldl_execute _ _ sig hmem hexec htype⟩

/-- C10 witness: a low-tier fund below quota yields an executable hold_buy
signal, and the executor includes it in the executed list. -/
theorem C10_witness :
    (computeSignal testStrategy [] 7 ⟨"B3", "Bond 3", "bond", "low", 2⟩ []).signal_type
      ∈ ["hold_buy", "buy", "extra_buy", "sell", "extra_sell"]
    ∧ (computeSignal testStrategy [] 7 ⟨"B3", "Bond 3", "bond", "low", 2⟩ [])
        ∈ (execute_signals (compute_signals testStrategy [⟨"B3", "Bond 3", "bond", "low", 2⟩]
            [] 7 (fun _ => []))).1 :=
  C10_executable_signals testStrategy [⟨"B3", "Bond 3", "bond", "low", 2⟩] [] 7 (fun _ => [])
    _ (by simp [compute_signals]) (by decide)

end Myfund
